import Mathlib

/-!
Verification of the session-lifecycle / message-store behavior of the
`servidor-whatsapp-lite` repository.  The definitions below are a shallow
embedding of the JavaScript source (the "VERSÃO DEFINITIVA" variant of
`servidor.js`, which is the variant whose policy the specification fixes,
plus the V4 media sweep and media route that only exist in the V4 variant).
-/

namespace ServidorWhatsapp

/-! ## Message ring buffer

Embeds (servidor.js, definitiva variant):
```
const MAX_MESSAGES = 200;
const addMessage = (msg) => {
  messages.unshift(msg);
  if (messages.length > MAX_MESSAGES) {
    messages = messages.slice(0, MAX_MESSAGES);
  }
};
```
-/

def MAX_MESSAGES : Nat := 200

/-- The `addMessage` helper: unshift at the front, then truncate to `MAX_MESSAGES`
when the length exceeds the capacity. -/
def addMessage {α : Type} (msg : α) (messages : List α) : List α :=
  if (msg :: messages).length > MAX_MESSAGES then (msg :: messages).take MAX_MESSAGES
  else msg :: messages

/-- The buffer obtained by feeding a whole sequence of inputs (in call
order) to `addMessage`, starting from the empty initial buffer. -/
def appendAll {α : Type} (inputs : List α) : List α :=
  inputs.foldl (fun buf m => addMessage m buf) []

/-- JavaScript `Array.prototype.slice(0, e)`: a non-negative end index
takes a prefix, a negative end index counts from the end of the array. -/
def jsSliceEnd {α : Type} (l : List α) (e : Int) : List α :=
  if e < 0 then l.take (l.length - e.natAbs) else l.take e.toNat

/-- The `/messages` route (definitiva variant):
```
const limit = parseInt(req.query.limit) || 50;
res.json({ messages: messages.slice(0, limit) });
```
`limitParam = none` models an absent or non-numeric `limit` query
parameter (`parseInt` returns `NaN`, which is falsy, as is `0`). -/
def messagesRoute {α : Type} (messages : List α) (limitParam : Option Int) : List α :=
  let limit : Int :=
    match limitParam with
    | none => 50
    | some v => if v = 0 then 50 else v
  jsSliceEnd messages limit

/-! ## Address normalization

Embeds (servidor.js, definitiva variant):
```
const formatPhone = (phone) => {
  if (!phone) return null;
  if (phone.includes('@')) return phone;
  const digits = phone.replace(/\D/g, '');
  if (!digits) return null;
  return `${digits}@s.whatsapp.net`;
};
```
-/

def formatPhone (phone : String) : Option String :=
  if phone = "" then none
  else if phone.toList.contains '@' then some phone
  else
    let digits := (phone.toList.filter Char.isDigit).asString
    if digits = "" then none
    else some (digits ++ "@s.whatsapp.net")

/-! ## Inbound message handler (`messages.upsert`, definitiva variant)

```
sock.ev.on('messages.upsert', async ({ messages: newMessages, type }) => {
  if (type !== 'notify') return;
  for (const msg of newMessages) {
    if (!msg.message) continue;
    const from = msg.key.remoteJid;
    const fromMe = msg.key.fromMe;
    if (from === 'status@broadcast' || from?.endsWith('@g.us')) continue;
    const text = msg.message.conversation || msg.message.extendedTextMessage?.text ||
      msg.message.imageMessage?.caption || msg.message.videoMessage?.caption ||
      msg.message.documentMessage?.caption || '';
    ... addMessage(parsed); ... }
});
```
-/

/-- The fields of a Baileys message content object that the handler probes.
`headKey` models `Object.keys(msg.message)[0]` (the insertion-first key of
the JS object, which is not derivable from the probed fields). -/
structure MsgContent where
  conversation : Option String
  extendedText : Option String
  imageCaption : Option String
  videoCaption : Option String
  documentCaption : Option String
  headKey : String
deriving DecidableEq, Repr

structure MsgKey where
  id : String
  remoteJid : String
  fromMe : Bool
deriving DecidableEq, Repr

structure WAMessage where
  key : MsgKey
  message : Option MsgContent
  pushName : String
  messageTimestamp : Option Nat
deriving DecidableEq, Repr

/-- JavaScript `a || b` on strings: the empty string is falsy. -/
def jsOrStr (a : Option String) (b : String) : String :=
  match a with
  | none => b
  | some s => if s = "" then b else s

/-- The `||`-chain extracting the best-effort text body. -/
def extractText (c : MsgContent) : String :=
  jsOrStr c.conversation (jsOrStr c.extendedText (jsOrStr c.imageCaption
    (jsOrStr c.videoCaption (jsOrStr c.documentCaption ""))))

/-- The record the handler pushes into the ring buffer.  `fromJid` embeds
the JS field `from` (a Lean keyword). -/
structure ParsedMessage where
  id : String
  fromJid : String
  fromMe : Bool
  text : String
  name : String
  timestamp : Nat
  type : String
deriving DecidableEq, Repr

/-- Group / broadcast filter: `from === 'status@broadcast' || from?.endsWith('@g.us')`. -/
def isFilteredJid (jid : String) : Bool :=
  jid = "status@broadcast" || "@g.us".toList.isSuffixOf jid.toList

/-- The record literal built by the loop body. `now` models `Date.now()`
(the `messageTimestamp ? ... : Date.now()` fallback; `0` is falsy). -/
def parseMessage (now : Nat) (m : WAMessage) (c : MsgContent) : ParsedMessage :=
  { id := m.key.id
    fromJid := m.key.remoteJid
    fromMe := m.key.fromMe
    text := extractText c
    name := m.pushName
    timestamp :=
      match m.messageTimestamp with
      | none => now
      | some t => if t = 0 then now else t * 1000
    type := c.headKey }

/-- One iteration of the `for (const msg of newMessages)` loop body
(definitiva variant). -/
def upsertStep (now : Nat) (buf : List ParsedMessage) (m : WAMessage) : List ParsedMessage :=
  match m.message with
  | none => buf
  | some c =>
    if isFilteredJid m.key.remoteJid then buf
    else addMessage (parseMessage now m c) buf

/-- The whole `messages.upsert` handler applied to one event. -/
def messagesUpsert (now : Nat) (type : String) (batch : List WAMessage)
    (buf : List ParsedMessage) : List ParsedMessage :=
  if type ≠ "notify" then buf else batch.foldl (upsertStep now) buf

/-! ## Session lifecycle manager (definitiva variant)

Globals: `sock`, `qrCode`, `isConnected`, `isConnecting`, `connectionError`,
`messages`, and the credential directory `AUTH_FOLDER`.  The model adds two
bookkeeping fields that make session liveness observable: `sockOpen` (the
most recently created socket still has a live connection, so it can emit
events) and `openClients` (how many created-and-not-yet-closed session
clients exist — `sock = makeWASocket(...)` replaces the reference without
terminating a previous live socket). -/

structure SrvState where
  isConnected : Bool
  isConnecting : Bool
  qrCode : Option String
  connectionError : Option String
  authFiles : List String
  messages : List ParsedMessage
  sockOpen : Bool
  openClients : Nat
deriving DecidableEq, Repr

/-- The spec's `SessionStatus` enum. -/
inductive SessionStatus where
  | disconnected
  | connecting
  | awaitingPairing
  | connected
deriving DecidableEq, Repr

/-- Abstraction map from the JS globals to the spec's `SessionStatus`. -/
def SrvState.status (s : SrvState) : SessionStatus :=
  if s.isConnected then .connected
  else if s.qrCode.isSome then .awaitingPairing
  else if s.isConnecting then .connecting
  else .disconnected

/-- Baileys disconnect-reason classification used by the close handler. -/
inductive DisconnectReason where
  | loggedOut
  | restartRequired
  | connectionClosed
  | connectionLost
  | timedOut
  | other (code : Nat)
deriving DecidableEq, Repr

/-- The `connectWhatsApp()` entry point (definitiva variant): reentrancy-guarded Start.
`ok = true` is the path in which socket construction succeeds; `ok = false`
is the `catch` branch (the awaited setup throws before a socket exists),
which resets the flag, records the error and schedules a 10s retry.
The returned list is the set of `setTimeout(connectWhatsApp, d)` delays
the call schedules. -/
def connectWhatsApp (ok : Bool) (s : SrvState) : SrvState × List Nat :=
  if s.isConnecting then (s, [])
  else if ok then
    ({ s with isConnecting := true, connectionError := none,
              sockOpen := true, openClients := s.openClients + 1 }, [])
  else
    ({ s with isConnecting := false, connectionError := some "connect error" }, [10000])

/-- The `connection.update` handler branch `if (qr)`: store the challenge and drop the connected flag. -/
def qrUpdate (c : String) (s : SrvState) : SrvState :=
  { s with qrCode := some c, isConnected := false }

/-- The `connection.update` handler branch for an open marker. -/
def openUpdate (s : SrvState) : SrvState :=
  { s with isConnected := true, isConnecting := false,
           qrCode := none, connectionError := none }

/-- State part of the `if (connection === 'close')` branch.  A close event
means the underlying socket terminated, so `sockOpen` drops and the live
client count decreases; `loggedOut` additionally wipes the credential
directory (`fs.rmSync(AUTH_FOLDER, ...)`) and sets the user-facing error. -/
def closeState (s : SrvState) (r : DisconnectReason) : SrvState :=
  { s with isConnected := false, isConnecting := false, qrCode := none,
           sockOpen := false, openClients := s.openClients - 1,
           authFiles := if r = .loggedOut then [] else s.authFiles,
           connectionError :=
             if r = .loggedOut then some "Deslogado. Escaneie o QR Code novamente."
             else s.connectionError }

/-- Reconnect delays the close handler schedules (`setTimeout(connectWhatsApp, d)`):
none for `loggedOut`, 1s for `restartRequired`, 3s for closed/lost/timed-out,
5s for everything else. -/
def closeTasks (r : DisconnectReason) : List Nat :=
  match r with
  | .loggedOut => []
  | .restartRequired => [1000]
  | .connectionClosed => [3000]
  | .connectionLost => [3000]
  | .timedOut => [3000]
  | .other _ => [5000]

/-- The `POST /reconnect` route: `sock.end()` then flag reset and
`setTimeout(connectWhatsApp, 1000)`. -/
def reconnectRouteState (s : SrvState) : SrvState :=
  { s with isConnected := false, isConnecting := false, qrCode := none,
           sockOpen := false,
           openClients := if s.sockOpen then s.openClients - 1 else s.openClients }

/-- The `POST /logout` route (definitiva variant): `sock.logout()`, flag reset,
credential wipe, and — unlike the V4 variant — no restart is scheduled. -/
def logoutRouteState (s : SrvState) : SrvState :=
  { s with isConnected := false, isConnecting := false, qrCode := none,
           authFiles := [], sockOpen := false,
           openClients := if s.sockOpen then s.openClients - 1 else s.openClients }

/-- The whole system: the mutable globals plus the multiset of pending
`setTimeout(connectWhatsApp, _)` timers. -/
structure Sys where
  srv : SrvState
  pending : List Nat
deriving DecidableEq, Repr

/-- Autonomous transitions: a pending reconnect timer fires (invoking
`connectWhatsApp`), or the live socket emits an event.  Events can only be
emitted while a socket connection is live (`sockOpen`); a pairing QR is
only emitted by a session that has not opened yet (a connected Baileys
session produces no pairing challenge — spec §3, a challenge is never live
while Connected). -/
inductive InternalStep : Sys → Sys → Prop where
  | timer (sys : Sys) (d : Nat) (ok : Bool) (hd : d ∈ sys.pending) :
      InternalStep sys
        ⟨(connectWhatsApp ok sys.srv).1,
         sys.pending.erase d ++ (connectWhatsApp ok sys.srv).2⟩
  | evQr (sys : Sys) (c : String) (hop : sys.srv.sockOpen = true)
      (hnc : sys.srv.isConnected = false) :
      InternalStep sys ⟨qrUpdate c sys.srv, sys.pending⟩
  | evOpened (sys : Sys) (hop : sys.srv.sockOpen = true) :
      InternalStep sys ⟨openUpdate sys.srv, sys.pending⟩
  | evClosed (sys : Sys) (r : DisconnectReason) (hop : sys.srv.sockOpen = true) :
      InternalStep sys ⟨closeState sys.srv r, sys.pending ++ closeTasks r⟩
  | evCreds (sys : Sys) (f : String) (hop : sys.srv.sockOpen = true) :
      InternalStep sys ⟨{ sys.srv with authFiles := sys.srv.authFiles ++ [f] }, sys.pending⟩
  | evUpsert (sys : Sys) (now : Nat) (ty : String) (batch : List WAMessage)
      (hop : sys.srv.sockOpen = true) :
      InternalStep sys
        ⟨{ sys.srv with messages := messagesUpsert now ty batch sys.srv.messages },
         sys.pending⟩

/-- Operator-initiated transitions through the request surface. -/
inductive RouteStep : Sys → Sys → Prop where
  | reconnectRoute (sys : Sys) :
      RouteStep sys ⟨reconnectRouteState sys.srv, sys.pending ++ [1000]⟩
  | logoutRoute (sys : Sys) :
      RouteStep sys ⟨logoutRouteState sys.srv, sys.pending⟩

def SysStep (a b : Sys) : Prop := InternalStep a b ∨ RouteStep a b

/-- Process start: all globals at their initial values; the single pending
timer models the `connectWhatsApp()` call in the `app.listen` callback. -/
def sys0 : Sys :=
  ⟨{ isConnected := false, isConnecting := false, qrCode := none,
     connectionError := none, authFiles := [], messages := [],
     sockOpen := false, openClients := 0 }, [0]⟩

def Reachable (sys : Sys) : Prop := Relation.ReflTransGen SysStep sys0 sys

/-! ## `POST /send` (definitiva variant)

```
const { to, text, message } = req.body;
const content = text || message;
if (!to || !content) return res.status(400)... 'Faltando "to" ou "text"'
if (!isConnected || !sock) return res.status(503)... 'Desconectado'
const jid = formatPhone(to);
if (!jid) return res.status(400)... 'Telefone inválido'
const result = await sock.sendMessage(jid, { text: content });
res.json({ ok: true, success: true, id: result?.key?.id });
```
The route body never touches `messages`. -/

inductive SendOutcome where
  | missingParams
  | notConnected
  | invalidPhone
  | sent (jid : String) (msgId : String)
  | sendFailed (err : String)
deriving DecidableEq, Repr

/-- JavaScript `const content = text || message` (empty string falsy). -/
def sendContent (text message : String) : String :=
  if text = "" then message else text

/-- The `/send` handler.  `toAddr` embeds the JS request field `to`;
`hasSock` models `sock !== null`; `remote` models `sock.sendMessage`
(success yields the remote-assigned message id, failure the thrown error
message).  The returned state is the state of the mutable globals after
the request — the handler body never touches them. -/
def sendRoute (s : SrvState) (hasSock : Bool) (toAddr text message : String)
    (remote : String → String → Except String String) : SrvState × SendOutcome :=
  if toAddr = "" ∨ sendContent text message = "" then (s, .missingParams)
  else if s.isConnected = false ∨ hasSock = false then (s, .notConnected)
  else
    match formatPhone toAddr with
    | none => (s, .invalidPhone)
    | some jid =>
      match remote jid (sendContent text message) with
      | .ok msgId => (s, .sent jid msgId)
      | .error e => (s, .sendFailed e)

/-! ## Media sweep (`cleanupOldMedia`, V4 variant)

```
function cleanupOldMedia() {
  try {
    const files = fs.readdirSync(MEDIA_FOLDER);
    const now = Date.now();
    const maxAge = 7 * 24 * 60 * 60 * 1000; // 7 dias
    files.forEach(file => {
      const filepath = path.join(MEDIA_FOLDER, file);
      const stats = fs.statSync(filepath);
      if (now - stats.mtimeMs > maxAge) {
        fs.unlinkSync(filepath);
        log('CLEANUP', `Removido: ${file}`);
      }
    });
  } catch (error) { log('CLEANUP_ERROR', error.message); }
}
```
A throwing `unlinkSync` propagates out of the `forEach` callback, aborting
the iteration; the `try/catch` is around the whole sweep, not per file. -/

structure MediaFile where
  name : String
  mtimeMs : Int
  unlinkFails : Bool
deriving DecidableEq, Repr

def dayMs : Int := 24 * 60 * 60 * 1000

def maxAgeMs : Int := 7 * dayMs

/-- The `forEach` loop.  Returns the names actually deleted; a failing
`unlinkSync` ends the run (exception caught by the sweep-level handler). -/
def sweepGo (now : Int) : List MediaFile → List String → List String
  | [], acc => acc
  | f :: fs, acc =>
    if now - f.mtimeMs > maxAgeMs then
      if f.unlinkFails then acc
      else sweepGo now fs (acc ++ [f.name])
    else sweepGo now fs acc

def cleanupOldMedia (now : Int) (files : List MediaFile) : List String :=
  sweepGo now files []

/-! ## Media resolution (`GET /media/:filename`, V4 variant)

```
const { filename } = req.params;
const filepath = path.join(MEDIA_FOLDER, filename);
if (!fs.existsSync(filepath)) return res.status(404)...;
res.sendFile(filepath);
```
Paths are modelled as segment lists relative to the filesystem root;
`path.join` concatenates and normalizes (`..` pops a segment, `.` and
empty segments disappear; on an absolute path excess `..` is dropped). -/

def splitSegs (s : String) : List String :=
  (s.toList.splitOn '/').map List.asString

def normStep (acc : List String) (seg : String) : List String :=
  if seg = "" ∨ seg = "." then acc
  else if seg = ".." then acc.dropLast
  else acc ++ [seg]

def pathJoinNorm (base : List String) (rel : List String) : List String :=
  (base ++ rel).foldl normStep []

/-- The media directory `path.join('/var/data', 'media')` as segments. -/
def MEDIA_FOLDER_SEGS : List String := ["var", "data", "media"]

def resolveMediaPath (filename : String) : List String :=
  pathJoinNorm MEDIA_FOLDER_SEGS (splitSegs filename)

/-- The route: 404 when the resolved path does not exist, otherwise the
resolved path is served as-is — existence is the only check. -/
def mediaRouteServes (pathExists : Bool) (filename : String) : Option (List String) :=
  if pathExists then some (resolveMediaPath filename) else none

/-! ## Concrete fixtures used to instantiate the theorems -/

/-- A remote send that always succeeds with message id `WAID1`. -/
def exRemote : String → String → Except String String := fun _ _ => .ok "WAID1"

/-- A connected server state with stored credentials and an empty buffer. -/
def exConnState : SrvState :=
  { isConnected := true, isConnecting := false, qrCode := none,
    connectionError := none, authFiles := ["creds.json"], messages := [],
    sockOpen := true, openClients := 1 }

/-- A disconnected server state. -/
def exDiscState : SrvState :=
  { exConnState with isConnected := false, sockOpen := false, openClients := 0 }

def exContent : MsgContent :=
  { conversation := some "hello", extendedText := none, imageCaption := none,
    videoCaption := none, documentCaption := none, headKey := "conversation" }

def exGroupMsg : WAMessage :=
  { key := { id := "id1", remoteJid := "123-456@g.us", fromMe := false },
    message := some exContent, pushName := "Alice", messageTimestamp := some 1700000000 }

def exDirectMsg : WAMessage :=
  { key := { id := "id2", remoteJid := "5511999999999@s.whatsapp.net", fromMe := false },
    message := some exContent, pushName := "Bob", messageTimestamp := some 1700000001 }

/-- A stored media file whose deletion throws (e.g. `EPERM`). -/
def exFailFile : MediaFile := { name := "a.jpg", mtimeMs := 0, unlinkFails := true }

/-- A stored media file (older than the retention window for any recent clock). -/
def exOldFile : MediaFile := { name := "b.jpg", mtimeMs := 0, unlinkFails := false }

/-- The system state after the startup timer has fired once: exactly one
session client, `Connecting`. -/
def sys1 : Sys :=
  ⟨(connectWhatsApp true sys0.srv).1,
   sys0.pending.erase 0 ++ (connectWhatsApp true sys0.srv).2⟩

/-! ## Ring buffer lemmas -/

theorem addMessage_take {α : Type} (m : α) (h : List α) :
    addMessage m (h.take MAX_MESSAGES) = (m :: h).take MAX_MESSAGES := by
  by_cases hl : MAX_MESSAGES ≤ h.length
  · have h1 : (h.take MAX_MESSAGES).length = MAX_MESSAGES := by
      rw [List.length_take]; omega
    have h2 : (m :: h.take MAX_MESSAGES).length > MAX_MESSAGES := by
      rw [List.length_cons, h1]; omega
    simp only [addMessage, if_pos h2]
    rw [show MAX_MESSAGES = 199 + 1 from rfl, List.take_succ_cons, List.take_succ_cons,
      List.take_take]
    norm_num
  · push_neg at hl
    have h3 : h.take MAX_MESSAGES = h := List.take_of_length_le (by omega)
    rw [h3]
    have h4 : ¬ (m :: h).length > MAX_MESSAGES := by
      rw [List.length_cons]; omega
    simp only [addMessage, if_neg h4]
    exact (List.take_of_length_le (by rw [List.length_cons]; omega)).symm

theorem foldl_addMessage {α : Type} (inputs : List α) : ∀ h : List α,
    inputs.foldl (fun buf m => addMessage m buf) (h.take MAX_MESSAGES)
      = (inputs.reverse ++ h).take MAX_MESSAGES := by
  induction inputs with
  | nil => intro h; simp
  | cons i is ih =>
    intro h
    rw [List.foldl_cons, addMessage_take, ih (i :: h)]
    simp [List.append_assoc]

theorem appendAll_eq {α : Type} (inputs : List α) :
    appendAll inputs = inputs.reverse.take MAX_MESSAGES := by
  have h0 : ([] : List α) = ([] : List α).take MAX_MESSAGES := by simp
  rw [appendAll, h0, foldl_addMessage inputs []]
  simp

/-- Claim C3: for every sequence of `addMessage` calls and every `n`,
the first `n` records are at most `min n MAX_MESSAGES` many, in
newest-first insertion order, and the buffer never exceeds the capacity;
the `/messages` route returns exactly this prefix for a positive limit. -/
theorem c3_ring_buffer {α : Type} (inputs : List α) (n : Nat) :
    (appendAll inputs).length ≤ MAX_MESSAGES ∧
    appendAll inputs = inputs.reverse.take MAX_MESSAGES ∧
    (appendAll inputs).take n = inputs.reverse.take (min n MAX_MESSAGES) ∧
    ((appendAll inputs).take n).length ≤ min n MAX_MESSAGES ∧
    messagesRoute (appendAll inputs) (some ((n : Int) + 1))
      = (appendAll inputs).take (n + 1) := by
  have he := appendAll_eq (α := α) inputs
  refine ⟨?_, he, ?_, ?_, ?_⟩
  · rw [he, List.length_take]; omega
  · rw [he, List.take_take]
  · rw [List.length_take, he, List.length_take]; omega
  · have hne : ((n : Int) + 1) ≠ 0 := by omega
    have hnn : ¬ ((n : Int) + 1) < 0 := by omega
    have htn : ((n : Int) + 1).toNat = n + 1 := by omega
    simp only [messagesRoute, jsSliceEnd, if_neg hne, if_neg hnn, htn]

/-! ## Address normalization (C6) -/

/-- Claim C6: an input containing `@` is returned unchanged; every bare
input (no `@`) with at least one digit is stripped of all non-digit
characters and suffixed with `@s.whatsapp.net` (so `"5511999999999"` maps
to `"5511999999999@s.whatsapp.net"`); an input that is empty, or empty
after stripping non-digits, yields `null` (`InvalidTarget`). -/
theorem c6_format_phone :
    formatPhone "5511999999999" = some "5511999999999@s.whatsapp.net" ∧
    (∀ p : String, p ≠ "" → p.toList.contains '@' = true → formatPhone p = some p) ∧
    (∀ p : String, p ≠ "" → p.toList.contains '@' = false →
      (p.toList.filter Char.isDigit).asString ≠ "" →
      formatPhone p
        = some ((p.toList.filter Char.isDigit).asString ++ "@s.whatsapp.net")) ∧
    formatPhone "" = none ∧
    (∀ p : String, p.toList.contains '@' = false →
      p.toList.filter Char.isDigit = [] → formatPhone p = none) := by
  refine ⟨by decide, ?_, ?_, by decide, ?_⟩
  · intro p hne hat
    unfold formatPhone
    rw [if_neg hne, if_pos hat]
  · intro p hne hat hdig
    unfold formatPhone
    rw [if_neg hne, if_neg (by rw [hat]; exact Bool.false_ne_true)]
    show (if (p.toList.filter Char.isDigit).asString = "" then none
      else some ((p.toList.filter Char.isDigit).asString ++ "@s.whatsapp.net")) = _
    rw [if_neg hdig]
  · intro p hat hdig
    by_cases hne : p = ""
    · simp [formatPhone, hne]
    · unfold formatPhone
      rw [if_neg hne, if_neg (by rw [hat]; exact Bool.false_ne_true)]
      have hd : (List.filter Char.isDigit p.data).asString = "" := by
        rw [show List.filter Char.isDigit p.data = [] from hdig]; rfl
      simp [hd]

theorem c6_witness :
    formatPhone "x@s.whatsapp.net" = some "x@s.whatsapp.net" ∧
    formatPhone "+55 (11) 9999-9999" = some "551199999999@s.whatsapp.net" ∧
    formatPhone "abc-def" = none := by
  refine ⟨c6_format_phone.2.1 "x@s.whatsapp.net" (by decide) (by decide), ?_,
    c6_format_phone.2.2.2.2 "abc-def" (by decide) (by decide)⟩
  have h := c6_format_phone.2.2.1 "+55 (11) 9999-9999" (by decide) (by decide) (by decide)
  rw [h]
  decide

/-! ## `/messages` limit handling (C9) -/

/-- Counterexample to claim C9: with two records buffered, a limit of `-1`
returns a different result than the default limit does (JS `slice(0, -1)`
drops the last record instead of falling back to the default). -/
theorem c9_counterexample :
    messagesRoute ([10, 20] : List Nat) (some (-1)) = [10] ∧
    messagesRoute ([10, 20] : List Nat) none = [10, 20] ∧
    messagesRoute ([10, 20] : List Nat) (some (-1))
      ≠ messagesRoute ([10, 20] : List Nat) none := by decide

/-- Claim C9 (amended): an absent, non-numeric or zero `limit` uses the
default of 50; a **negative** limit is passed through to `slice` as a
negative end index, returning all records except the last `|limit|` — not
the default result in general: whenever the buffer is non-empty and holds
at most the default's 50 records, the two results differ. -/
theorem c9_limit_handling {α : Type} (msgs : List α) (v : Int) :
    messagesRoute msgs none = msgs.take 50 ∧
    messagesRoute msgs (some 0) = msgs.take 50 ∧
    (v < 0 → messagesRoute msgs (some v) = msgs.take (msgs.length - v.natAbs)) ∧
    (v < 0 → 1 ≤ msgs.length → msgs.length ≤ 50 →
      messagesRoute msgs (some v) ≠ messagesRoute msgs none) := by
  have hnone : messagesRoute msgs none = msgs.take 50 := by
    simp [messagesRoute, jsSliceEnd]
  have hneg : v < 0 → messagesRoute msgs (some v)
      = msgs.take (msgs.length - v.natAbs) := by
    intro hv
    have hvne : v ≠ 0 := by omega
    simp only [messagesRoute, jsSliceEnd, if_neg hvne, if_pos hv]
  refine ⟨hnone, by simp [messagesRoute, jsSliceEnd], hneg, ?_⟩
  intro hv h1 h50 heq
  rw [hneg hv, hnone] at heq
  have hlen := congrArg List.length heq
  rw [List.length_take, List.length_take] at hlen
  omega

theorem c9_witness :
    messagesRoute ([10, 20, 30] : List Nat) none = [10, 20, 30] ∧
    messagesRoute ([10, 20, 30] : List Nat) (some (-2)) = [10] ∧
    messagesRoute ([10, 20, 30] : List Nat) (some (-2))
      ≠ messagesRoute ([10, 20, 30] : List Nat) none := by
  have h := c9_limit_handling ([10, 20, 30] : List Nat) (-2)
  refine ⟨by rw [h.1]; decide, by rw [h.2.2.1 (by decide)]; decide,
    h.2.2.2 (by decide) (by decide) (by decide)⟩

/-! ## `/send` route (C4, C5) -/

/-- Counterexample to claim C4 as stated: a call with an empty target made
while disconnected fails with the missing-parameter error, not with
`NotConnected` — parameter validation precedes the connection check. -/
theorem c4_counterexample :
    exDiscState.isConnected = false ∧
    (sendRoute exDiscState true "" "hello" "" exRemote).2 = SendOutcome.missingParams ∧
    SendOutcome.missingParams ≠ SendOutcome.notConnected := by
  refine ⟨by decide, rfl, by decide⟩

/-- Claim C4 (amended): the handler never mutates the globals (in
particular the message buffer); while not connected (or with no socket), a
call with non-empty target and non-empty content fails `NotConnected`, and
a call with empty target or empty content fails with the
missing-parameter error instead. -/
theorem c4_send_not_connected (s : SrvState) (hasSock : Bool)
    (toAddr text msgp : String) (remote : String → String → Except String String) :
    (sendRoute s hasSock toAddr text msgp remote).1 = s ∧
    ((s.isConnected = false ∨ hasSock = false) → toAddr ≠ "" →
      sendContent text msgp ≠ "" →
      (sendRoute s hasSock toAddr text msgp remote).2 = .notConnected) ∧
    ((s.isConnected = false ∨ hasSock = false) →
      (toAddr = "" ∨ sendContent text msgp = "") →
      (sendRoute s hasSock toAddr text msgp remote).2 = .missingParams) := by
  refine ⟨?_, ?_, ?_⟩
  · unfold sendRoute
    repeat' split
    all_goals rfl
  · intro hconn hto hcontent
    unfold sendRoute
    rw [if_neg (by push_neg; exact ⟨hto, hcontent⟩), if_pos hconn]
  · intro hconn hmissing
    unfold sendRoute
    rw [if_pos hmissing]

theorem c4_witness :
    (sendRoute exDiscState true "5511999999999" "oi" "" exRemote).1 = exDiscState ∧
    (sendRoute exDiscState true "5511999999999" "oi" "" exRemote).2
      = SendOutcome.notConnected := by
  have h := c4_send_not_connected exDiscState true "5511999999999" "oi" "" exRemote
  exact ⟨h.1, h.2.1 (Or.inl (by decide)) (by decide) (by decide)⟩

/-- Counterexample to claim C5 as stated: a successful send (connected,
valid target, remote id returned) leaves the message buffer exactly as it
was — the handler appends no outbound record. -/
theorem c5_counterexample :
    (sendRoute exConnState true "5511999999999" "oi" "" exRemote).2
      = SendOutcome.sent "5511999999999@s.whatsapp.net" "WAID1" ∧
    exConnState.messages = [] ∧
    (sendRoute exConnState true "5511999999999" "oi" "" exRemote).1.messages = [] := by
  refine ⟨rfl, rfl, rfl⟩

/-- Claim C5 (amended): a successful `Send` forwards the content to the
session client and returns the remote-assigned message id, but it appends
**no** outbound record — the globals (including the message buffer) are
returned unchanged. -/
theorem c5_send_success (s : SrvState) (toAddr text msgp jid mid : String)
    (remote : String → String → Except String String)
    (hconn : s.isConnected = true) (hto : toAddr ≠ "")
    (hcontent : sendContent text msgp ≠ "")
    (hjid : formatPhone toAddr = some jid)
    (hremote : remote jid (sendContent text msgp) = Except.ok mid) :
    sendRoute s true toAddr text msgp remote = (s, .sent jid mid) := by
  unfold sendRoute
  rw [if_neg (by push_neg; exact ⟨hto, hcontent⟩), if_neg (by rw [hconn]; simp)]
  simp only [hjid, hremote]

theorem c5_witness :
    sendRoute exConnState true "5511999999999" "oi" "" exRemote
      = (exConnState, SendOutcome.sent "5511999999999@s.whatsapp.net" "WAID1") :=
  c5_send_success exConnState "5511999999999" "oi" "" "5511999999999@s.whatsapp.net"
    "WAID1" exRemote (by decide) (by decide) (by decide) (by decide) rfl

/-! ## Inbound batch filtering (C7) -/

theorem addMessage_head {α : Type} (m : α) (buf : List α) :
    (addMessage m buf).head? = some m := by
  unfold addMessage
  split
  · rw [show MAX_MESSAGES = 199 + 1 from rfl, List.take_succ_cons]; rfl
  · rfl

theorem addMessage_length_of_lt {α : Type} (m : α) (buf : List α)
    (h : buf.length < MAX_MESSAGES) :
    (addMessage m buf).length = buf.length + 1 := by
  unfold addMessage
  rw [if_neg (by rw [List.length_cons]; omega), List.length_cons]

/-- Claim C7: in a `notify` batch, a message addressed to a group (or the
status broadcast) is skipped before any processing; a batch of one
group-addressed and one direct message yields exactly the one record for
the direct message, at the front of the buffer. -/
theorem c7_group_filter (now : Nat) (g d : WAMessage) (cg cd : MsgContent)
    (buf : List ParsedMessage)
    (hg : g.message = some cg)
    (hgrp : "@g.us".toList.isSuffixOf g.key.remoteJid.toList = true)
    (hd : d.message = some cd)
    (hdb : d.key.remoteJid ≠ "status@broadcast")
    (hdg : "@g.us".toList.isSuffixOf d.key.remoteJid.toList = false) :
    messagesUpsert now "notify" [g, d] buf = addMessage (parseMessage now d cd) buf ∧
    (messagesUpsert now "notify" [g, d] buf).head? = some (parseMessage now d cd) ∧
    (buf.length < MAX_MESSAGES →
      (messagesUpsert now "notify" [g, d] buf).length = buf.length + 1) := by
  have hfg : isFilteredJid g.key.remoteJid = true := by
    unfold isFilteredJid; rw [hgrp]; simp
  have hfd : isFilteredJid d.key.remoteJid = false := by
    unfold isFilteredJid; rw [hdg]; simp [hdb]
  have hmain : messagesUpsert now "notify" [g, d] buf
      = addMessage (parseMessage now d cd) buf := by
    unfold messagesUpsert
    rw [if_neg (by simp)]
    simp only [List.foldl_cons, List.foldl_nil, upsertStep, hg, hd, hfg, hfd]
    simp
  refine ⟨hmain, ?_, ?_⟩
  · rw [hmain, addMessage_head]
  · intro hlen
    rw [hmain, addMessage_length_of_lt _ _ hlen]

theorem c7_witness :
    messagesUpsert 0 "notify" [exGroupMsg, exDirectMsg] []
      = [parseMessage 0 exDirectMsg exContent] := by
  have h := c7_group_filter 0 exGroupMsg exDirectMsg exContent exContent []
    rfl (by decide) rfl (by decide) (by decide)
  rw [h.1]; rfl

/-! ## Media sweep (C8) -/

theorem sweepGo_ok (t : Int) (files : List MediaFile) :
    ∀ acc : List String, (∀ f ∈ files, f.unlinkFails = false) →
      sweepGo t files acc
        = acc ++ (files.filter (fun f => t - f.mtimeMs > maxAgeMs)).map (·.name) := by
  induction files with
  | nil => intro acc _; simp [sweepGo]
  | cons f fs ih =>
    intro acc h
    have hf : f.unlinkFails = false := h f (by simp)
    have hfs : ∀ g ∈ fs, g.unlinkFails = false := fun g hg => h g (by simp [hg])
    rw [List.filter_cons]
    by_cases hold : t - f.mtimeMs > maxAgeMs
    · simp only [sweepGo, if_pos hold, hf, Bool.false_eq_true, if_false,
        ih _ hfs, decide_eq_true hold, if_pos]
      simp
    · simp only [sweepGo, if_neg hold, ih _ hfs]
      have : (decide (t - f.mtimeMs > maxAgeMs)) = false := by
        simpa using hold
      rw [this]
      simp

theorem sweepGo_abort (t : Int) (bad : MediaFile) (post : List MediaFile)
    (hbadOld : t - bad.mtimeMs > maxAgeMs) (hbadFail : bad.unlinkFails = true) :
    ∀ (pre : List MediaFile) (acc : List String),
      (∀ f ∈ pre, f.unlinkFails = false) →
      sweepGo t (pre ++ bad :: post) acc
        = acc ++ (pre.filter (fun f => t - f.mtimeMs > maxAgeMs)).map (·.name) := by
  intro pre
  induction pre with
  | nil =>
    intro acc _
    simp [sweepGo, if_pos hbadOld, hbadFail]
  | cons f fs ih =>
    intro acc h
    have hf : f.unlinkFails = false := h f (by simp)
    have hfs : ∀ g ∈ fs, g.unlinkFails = false := fun g hg => h g (by simp [hg])
    rw [List.filter_cons, List.cons_append]
    by_cases hold : t - f.mtimeMs > maxAgeMs
    · simp only [sweepGo, if_pos hold, hf, Bool.false_eq_true, if_false,
        ih _ hfs, decide_eq_true hold, if_pos]
      simp
    · simp only [sweepGo, if_neg hold, ih _ hfs]
      have : (decide (t - f.mtimeMs > maxAgeMs)) = false := by
        simpa using hold
      rw [this]
      simp

/-- Counterexample to claim C8 as stated: both stored files are far older
than the retention window, yet the sweep deletes neither — the failing
deletion of `a.jpg` raises out of the `forEach`, is caught by the
sweep-level `try/catch`, and aborts the sweep before `b.jpg` is visited. -/
theorem c8_counterexample :
    (700000000000 : Int) - exOldFile.mtimeMs > maxAgeMs ∧
    exOldFile.unlinkFails = false ∧
    cleanupOldMedia 700000000000 [exFailFile, exOldFile] = [] := by
  refine ⟨by decide, rfl, rfl⟩

/-- Claim C8 (amended): when no deletion fails, the sweep deletes exactly
the files strictly older than the 7-day window (an 8-day-old file is
deleted, a 6-day-old one is retained); but a single deletion failure is
caught by the sweep-level handler and aborts the remainder of that run, so
eligible files after the failing one are not deleted. -/
theorem c8_sweep (t : Int) (pre post : List MediaFile) (bad : MediaFile)
    (hpre : ∀ f ∈ pre, f.unlinkFails = false)
    (hbadOld : t - bad.mtimeMs > maxAgeMs)
    (hbadFail : bad.unlinkFails = true) :
    (∀ files : List MediaFile, (∀ f ∈ files, f.unlinkFails = false) →
      cleanupOldMedia t files
        = (files.filter (fun f => t - f.mtimeMs > maxAgeMs)).map (·.name)) ∧
    cleanupOldMedia t (pre ++ bad :: post)
      = (pre.filter (fun f => t - f.mtimeMs > maxAgeMs)).map (·.name) ∧
    cleanupOldMedia t
        [{ name := "old8", mtimeMs := t - 8 * dayMs, unlinkFails := false },
         { name := "keep6", mtimeMs := t - 6 * dayMs, unlinkFails := false }]
      = ["old8"] := by
  refine ⟨?_, ?_, ?_⟩
  · intro files hok
    rw [cleanupOldMedia, sweepGo_ok t files [] hok]
    simp
  · rw [cleanupOldMedia, sweepGo_abort t bad post hbadOld hbadFail pre [] hpre]
    simp
  · have h8 : maxAgeMs < 8 * dayMs := by simp only [maxAgeMs, dayMs]; omega
    have h6 : ¬ maxAgeMs < 6 * dayMs := by simp only [maxAgeMs, dayMs]; omega
    simp [cleanupOldMedia, sweepGo, h8, h6]

theorem c8_witness :
    cleanupOldMedia 700000000000 [exOldFile, exFailFile] = ["b.jpg"] := by
  have h := (c8_sweep 700000000000 [exOldFile] [] exFailFile
    (by intro f hf; simp at hf; rw [hf]; rfl) (by decide) rfl).2.1
  rw [show ([exOldFile, exFailFile] : List MediaFile)
    = [exOldFile] ++ exFailFile :: [] from rfl, h]
  decide

/-! ## Close-event classification (C1) -/

/-- With no pending timer and no live socket, no autonomous step is
enabled at all. -/
theorem internal_stuck (t u : Sys) (hpend : t.pending = [])
    (hsock : t.srv.sockOpen = false) : ¬ InternalStep t u := by
  intro h
  cases h with
  | timer d ok hd => rw [hpend] at hd; exact (List.not_mem_nil d) hd
  | evQr c hop hnc => rw [hsock] at hop; exact Bool.false_ne_true hop
  | evOpened hop => rw [hsock] at hop; exact Bool.false_ne_true hop
  | evClosed r hop => rw [hsock] at hop; exact Bool.false_ne_true hop
  | evCreds f hop => rw [hsock] at hop; exact Bool.false_ne_true hop
  | evUpsert now ty batch hop => rw [hsock] at hop; exact Bool.false_ne_true hop

theorem internal_stuck_reach (t u : Sys)
    (hr : Relation.ReflTransGen InternalStep t u)
    (hpend : t.pending = []) (hsock : t.srv.sockOpen = false) : u = t := by
  induction hr with
  | refl => rfl
  | tail hab hbc ih =>
    rw [ih] at hbc
    exact absurd hbc (internal_stuck t _ hpend hsock)

/-- Claim C1: a `loggedOut` close wipes the credential directory, schedules
no reconnect, leaves the status `Disconnected`, and — absent an explicit
restart through the request surface — every autonomously reachable later
state is still `Disconnected`; every close with any other reason schedules
exactly one reconnect timer and keeps the credentials. -/
theorem c1_logged_out_close (s : SrvState) (r : DisconnectReason) :
    (r = .loggedOut →
      (closeState s r).authFiles = [] ∧
      closeTasks r = [] ∧
      (closeState s r).status = .disconnected ∧
      (∀ u : Sys, Relation.ReflTransGen InternalStep ⟨closeState s r, []⟩ u →
        u.srv.status = .disconnected)) ∧
    (r ≠ .loggedOut →
      (∃ dly : Nat, closeTasks r = [dly]) ∧ (closeState s r).authFiles = s.authFiles) := by
  constructor
  · intro hlo
    subst hlo
    have hst : (closeState s .loggedOut).status = .disconnected := by
      simp [closeState, SrvState.status]
    refine ⟨by simp [closeState], rfl, hst, ?_⟩
    intro u hu
    rw [internal_stuck_reach _ u hu rfl (by simp [closeState])]
    exact hst
  · intro hne
    refine ⟨?_, ?_⟩
    · cases r with
      | loggedOut => exact absurd rfl hne
      | restartRequired => exact ⟨1000, rfl⟩
      | connectionClosed => exact ⟨3000, rfl⟩
      | connectionLost => exact ⟨3000, rfl⟩
      | timedOut => exact ⟨3000, rfl⟩
      | other code => exact ⟨5000, rfl⟩
    · simp [closeState, hne]

theorem c1_witness :
    (closeState exConnState DisconnectReason.loggedOut).authFiles = [] ∧
    closeTasks DisconnectReason.loggedOut = [] ∧
    (closeState exConnState DisconnectReason.loggedOut).status
      = SessionStatus.disconnected ∧
    closeTasks DisconnectReason.restartRequired = [1000] ∧
    (closeState exConnState DisconnectReason.restartRequired).authFiles
      = ["creds.json"] := by
  have h1 := (c1_logged_out_close exConnState DisconnectReason.loggedOut).1 rfl
  have h2 := (c1_logged_out_close exConnState DisconnectReason.restartRequired).2
    (by decide)
  exact ⟨h1.1, h1.2.1, h1.2.2.1, rfl, h2.2.trans rfl⟩

/-! ## Start() reentrancy guard (C2) -/

/-- Invariant over reachable system states: while a live socket has not
yet opened the connection, the `isConnecting` flag is still set (it is
only dropped by the open/close handlers or the connect failure path), and
a pairing challenge can only be held while its socket is live. -/
def SysInv (sys : Sys) : Prop :=
  (sys.srv.sockOpen = true → sys.srv.isConnected = false →
    sys.srv.isConnecting = true) ∧
  (sys.srv.qrCode.isSome = true → sys.srv.sockOpen = true)

theorem connectWhatsApp_inv (ok : Bool) (s : SrvState)
    (h1 : s.sockOpen = true → s.isConnected = false → s.isConnecting = true)
    (h2 : s.qrCode.isSome = true → s.sockOpen = true) :
    ((connectWhatsApp ok s).1.sockOpen = true →
      (connectWhatsApp ok s).1.isConnected = false →
      (connectWhatsApp ok s).1.isConnecting = true) ∧
    ((connectWhatsApp ok s).1.qrCode.isSome = true →
      (connectWhatsApp ok s).1.sockOpen = true) := by
  unfold connectWhatsApp
  by_cases hg : s.isConnecting = true
  · rw [if_pos hg]; exact ⟨h1, h2⟩
  · rw [if_neg hg]
    cases ok with
    | true => exact ⟨fun _ _ => rfl, fun _ => rfl⟩
    | false =>
      rw [if_neg Bool.false_ne_true]
      exact ⟨fun hso hnc => absurd (h1 hso hnc) hg, fun hq => h2 hq⟩

theorem reachable_inv (sys : Sys) (h : Reachable sys) : SysInv sys := by
  induction h with
  | refl =>
    exact ⟨fun hso _ => absurd hso (by decide), fun hq => absurd hq (by decide)⟩
  | tail hab hbc ih =>
    rcases hbc with hint | hroute
    · cases hint with
      | timer d ok hd => exact connectWhatsApp_inv ok _ ih.1 ih.2
      | evQr c hop hnc => exact ⟨fun _ _ => ih.1 hop hnc, fun _ => hop⟩
      | evOpened hop =>
        exact ⟨fun _ hnc => absurd hnc (by simp [openUpdate]),
          fun hq => absurd hq (by simp [openUpdate])⟩
      | evClosed r hop =>
        exact ⟨fun hso _ => absurd hso (by simp [closeState]),
          fun hq => absurd hq (by simp [closeState])⟩
      | evCreds f hop => exact ⟨ih.1, ih.2⟩
      | evUpsert now ty batch hop => exact ⟨ih.1, ih.2⟩
    · cases hroute with
      | reconnectRoute =>
        exact ⟨fun hso _ => absurd hso (by simp [reconnectRouteState]),
          fun hq => absurd hq (by simp [reconnectRouteState])⟩
      | logoutRoute =>
        exact ⟨fun hso _ => absurd hso (by simp [logoutRouteState]),
          fun hq => absurd hq (by simp [logoutRouteState])⟩

/-- In every reachable state whose status is `Connecting` or
`AwaitingPairing`, the reentrancy flag `isConnecting` is set. -/
theorem status_connecting_flag (sys : Sys) (h : Reachable sys)
    (hst : sys.srv.status = .connecting ∨ sys.srv.status = .awaitingPairing) :
    sys.srv.isConnecting = true := by
  have hinv := reachable_inv sys h
  cases hic : sys.srv.isConnecting with
  | true => rfl
  | false =>
    exfalso
    cases hcon : sys.srv.isConnected with
    | true =>
      rcases hst with h1 | h1 <;>
        · unfold SrvState.status at h1
          rw [if_pos hcon] at h1
          exact absurd h1 (by decide)
    | false =>
      cases hq : sys.srv.qrCode.isSome with
      | true =>
        have hflag := hinv.1 (hinv.2 hq) hcon
        rw [hic] at hflag
        exact absurd hflag (by decide)
      | false =>
        rcases hst with h1 | h1 <;>
          · unfold SrvState.status at h1
            rw [if_neg (by rw [hcon]; exact Bool.false_ne_true),
              if_neg (by rw [hq]; exact Bool.false_ne_true),
              if_neg (by rw [hic]; exact Bool.false_ne_true)] at h1
            exact absurd h1 (by decide)

/-- Claim C2: calling `connectWhatsApp` in a reachable state whose status
is `Connecting` or `AwaitingPairing` is a no-op (state unchanged, no new
client created, nothing scheduled); hence two consecutive `Start()` calls
there leave the live-client count unchanged — the one client whose
connect attempt produced that status remains the only one. -/
theorem c2_start_reentrancy (sys : Sys) (h : Reachable sys)
    (hst : sys.srv.status = .connecting ∨ sys.srv.status = .awaitingPairing) :
    (∀ ok : Bool, connectWhatsApp ok sys.srv = (sys.srv, [])) ∧
    (∀ ok1 ok2 : Bool,
      (connectWhatsApp ok2 (connectWhatsApp ok1 sys.srv).1).1.openClients
        = sys.srv.openClients) := by
  have hic := status_connecting_flag sys h hst
  have hnoop : ∀ ok : Bool, connectWhatsApp ok sys.srv = (sys.srv, []) := by
    intro ok
    unfold connectWhatsApp
    rw [if_pos hic]
  refine ⟨hnoop, ?_⟩
  intro ok1 ok2
  calc (connectWhatsApp ok2 (connectWhatsApp ok1 sys.srv).1).1.openClients
      = (connectWhatsApp ok2 sys.srv).1.openClients := by rw [hnoop ok1]
    _ = sys.srv.openClients := by rw [hnoop ok2]

theorem sys1_reachable : Reachable sys1 :=
  Relation.ReflTransGen.single (Or.inl (InternalStep.timer sys0 0 true (by decide)))

theorem c2_witness :
    sys1.srv.status = SessionStatus.connecting ∧
    sys1.srv.openClients = 1 ∧
    connectWhatsApp true sys1.srv = (sys1.srv, []) ∧
    (connectWhatsApp true (connectWhatsApp true sys1.srv).1).1.openClients
      = sys1.srv.openClients := by
  have h := c2_start_reentrancy sys1 sys1_reachable (Or.inl (by decide))
  exact ⟨by decide, by decide, h.1 true, h.2 true true⟩

/-! ## Media path resolution (C10) -/

/-- Claim C10: the media route joins the caller-supplied filename onto the
media directory with no sanitization and serves any existing resolved
path; a filename with parent-directory segments resolves outside the
media root (`/var/data/media` + `../../etc/passwd` = `/var/etc/passwd`). -/
theorem c10_media_path_escape :
    (splitSegs "../../etc/passwd").contains ".." = true ∧
    mediaRouteServes true "../../etc/passwd" = some ["var", "etc", "passwd"] ∧
    (resolveMediaPath "../../etc/passwd").take MEDIA_FOLDER_SEGS.length
      ≠ MEDIA_FOLDER_SEGS := by
  refine ⟨by decide, by decide, by decide⟩

end ServidorWhatsapp
